import Mathlib

/-!
Shallow embedding of the flow-multiplexing layer of `rtp-over-quic`
(`src/transport/flow.go`) and of the congestion-control algorithm enum of the
`controller` package, together with theorems settling the specification
claims about them.

Bytes are modelled as `Nat` (values below 256); byte strings as `List Nat`.
Time stamps (`time.Time`) are modelled as abstract `Nat` instants.
-/

set_option autoImplicit false

namespace RtpOverQuic

/-- Encoding of `quicvarint.Write` (quic-go's variable-length integer writer),
called by `newFlowWithID` to precompute the flow-id prefix. Byte values are
taken modulo 256 as the Go code casts to `uint8`; the leading byte is OR-ed
with the two length bits. For `i` above `2^62 - 1` the Go library panics; we
return `[]` in that unreachable branch. -/
def quicvarintEncode (i : Nat) : List Nat :=
  if i ≤ 63 then [i]
  else if i ≤ 16383 then [Nat.lor (i / 2 ^ 8 % 256) 0x40, i % 256]
  else if i ≤ 1073741823 then
    [Nat.lor (i / 2 ^ 24 % 256) 0x80, i / 2 ^ 16 % 256, i / 2 ^ 8 % 256, i % 256]
  else if i ≤ 4611686018427387903 then
    [Nat.lor (i / 2 ^ 56 % 256) 0xc0, i / 2 ^ 48 % 256, i / 2 ^ 40 % 256, i / 2 ^ 32 % 256,
      i / 2 ^ 24 % 256, i / 2 ^ 16 % 256, i / 2 ^ 8 % 256, i % 256]
  else []

/-- Transport binding (the `io.Writer` a flow is bound to). `supportsCallback`
records whether the dynamic type is `*Dgram` or `*Stream`, the two cases of
the type switch in `flow.writeWithCallBack`; `writes` is the log of byte
strings handed to the transport's plain `Write`, `cbWrites` the log handed to
`WriteWithAckLossCallback`, each most recent last. -/
structure Transport where
  supportsCallback : Bool
  writes : List (List Nat)
  cbWrites : List (List Nat)
deriving DecidableEq, Repr

/-- Errors returned as Go `error` values by this layer:
`invalidTransport` is `errInvalidTransport` ("transport does not implement
ack/loss callback"); `marshalErr` carries an error bubbled up from an RTP
header or RTCP marshalling call (external pion code, kept abstract). -/
inductive Err where
  | invalidTransport
  | marshalErr (msg : String)
deriving DecidableEq, Repr

/-- Outcome of a write: `ok n` is Go's `(n, nil)`; `err e` is `(0, e)`;
`fatalNilTransport` is the nil-pointer panic of calling `Write` on an unbound
transport; `fatalNoFlow prio` is the explicit
`panic(fmt.Errorf("no flow with prio %v found", prio))` in `RTPFlow.Write`. -/
inductive WResult where
  | ok (n : Nat)
  | err (e : Err)
  | fatalNilTransport
  | fatalNoFlow (prio : Int)
deriving DecidableEq, Repr

/-- Bytes reported as written: `n` for a successful write, 0 for an error
return (Go returns `0, err`) and for a panic. -/
def WResult.bytesWritten : WResult → Nat
  | .ok n => n
  | _ => 0

/-- The `flow` struct: an optionally identified sub-flow. `transport := none`
models the nil `io.Writer` of a freshly constructed flow. -/
structure Flow where
  transport : Option Transport
  useID : Bool
  id : Nat
  varIntID : List Nat
deriving DecidableEq, Repr

/-- `newFlow`: an unidentified sub-flow with no bound transport. -/
def newFlow : Flow :=
  { transport := none, useID := false, id := 0, varIntID := [] }

/-- `newFlowWithID`: precomputes the varint encoding of `id` once. -/
def newFlowWithID (id : Nat) : Flow :=
  { transport := none, useID := true, id := id, varIntID := quicvarintEncode id }

/-- Binding a transport to a flow: the assignment `f.transport = t` performed
by `RTCPFlow.Bind` and (for the priority-0 flow) `RTPFlow.Bind`. -/
def Flow.bind (f : Flow) (t : Transport) : Flow :=
  { f with transport := some t }

/-- The framing both write paths apply: `payload = append(f.varIntID, payload...)`
when `useID` is set, i.e. the precomputed varint id prepended to the payload. -/
def frameID (f : Flow) (payload : List Nat) : List Nat :=
  if f.useID then f.varIntID ++ payload else payload

/-- `flow.write`: frames the payload and forwards it to the transport's plain
`Write`. A nil transport would dereference nil and panic. The transport model
acknowledges the full byte string, so the canonical `(len, nil)` is returned. -/
def Flow.write (f : Flow) (payload : List Nat) : Flow × WResult :=
  let p := frameID f payload
  match f.transport with
  | none => (f, .fatalNilTransport)
  | some t =>
      ({ f with transport := some { t with writes := t.writes ++ [p] } }, .ok p.length)

/-- The method named `writeWithCallBack` in the source: frames the payload,
then type-switches on the transport; only `*Dgram` and `*Stream`
(`supportsCallback = true`) accept the write, every other dynamic type —
including the nil interface of an unbound flow — falls to the `default` case
and returns `(0, errInvalidTransport)` without writing anything. The callback
argument is a closure; its later effect is modelled by `RTPFlow.ackCallback`. -/
def Flow.writeWithCallBack (f : Flow) (payload : List Nat) : Flow × WResult :=
  let p := frameID f payload
  match f.transport with
  | none => (f, .err .invalidTransport)
  | some t =>
      if t.supportsCallback then
        ({ f with transport := some { t with cbWrites := t.cbWrites ++ [p] } }, .ok p.length)
      else
        (f, .err .invalidTransport)

/-- The `RTCPFlow` struct, embedding a `flow`. -/
structure RTCPFlow where
  flow : Flow
deriving DecidableEq, Repr

/-- `NewRTCPFlow`. -/
def NewRTCPFlow : RTCPFlow :=
  { flow := newFlow }

/-- `NewRTCPFlowWithID`. -/
def NewRTCPFlowWithID (id : Nat) : RTCPFlow :=
  { flow := newFlowWithID id }

/-- `RTCPFlow.Bind`. -/
def RTCPFlow.Bind (f : RTCPFlow) (t : Transport) : RTCPFlow :=
  { flow := f.flow.bind t }

/-- `RTCPFlow.Write`: serializes the RTCP packet sequence with `rtcp.Marshal`
(external pion code, passed in as the abstract `marshal` argument over an
abstract packet type `α`) and performs a plain framed write; a marshal error
is returned as `(0, err)` with the transport untouched. -/
def RTCPFlow.Write {α : Type} (marshal : List α → Except String (List Nat))
    (f : RTCPFlow) (pkts : List α) : RTCPFlow × WResult :=
  match marshal pkts with
  | .error e => (f, .err (.marshalErr e))
  | .ok buf =>
      let r := f.flow.write buf
      ({ flow := r.1 }, r.2)

/-- An `rtp.Header` (external pion type), restricted to what `RTPFlow.Write`
reads: the SSRC, the sequence number, and the outcome of `header.Marshal()`
(external code, kept abstract as a field: either the marshalled bytes or an
error message). -/
structure RTPHeader where
  ssrc : Nat
  sequenceNumber : Nat
  marshal : Except String (List Nat)
deriving Repr

/-- The value of `header.MarshalSize()`: per the pion contract it equals the
length of the buffer a successful `Marshal()` produces. `RTPFlow.Write` only
evaluates it after `Marshal()` succeeded, so the error branch is unreachable
there. -/
def RTPHeader.MarshalSize (h : RTPHeader) : Nat :=
  match h.marshal with
  | .ok buf => buf.length
  | .error _ => 0

/-- The `ackedPkt` record built by `RTPFlow.ackCallback` and handed to the
local feedback generator. -/
structure AckedPkt where
  sentTS : Nat
  ssrc : Nat
  size : Nat
  seqNr : Nat
deriving DecidableEq, Repr

/-- Modelled from the spec: the `localRFC8888Generator` type is not under
`src/` (only `flow.go` calls it). Per the spec the generator consumes a
stream of acknowledged Send Records forwarded through its `ack` method and
periodically synthesizes feedback reports from them; we model its observable
state as the stream of records forwarded so far (most recent last), keyed by
the source id it was started with. -/
structure LocalRFC8888Generator where
  ssrc : Nat
  acked : List AckedPkt
deriving DecidableEq, Repr

/-- Modelled from the spec: `localRFC8888Generator.ack` consumes one
acknowledged Send Record, appending it to the stream the generator has seen. -/
def LocalRFC8888Generator.ack (g : LocalRFC8888Generator) (p : AckedPkt) :
    LocalRFC8888Generator :=
  { g with acked := g.acked ++ [p] }

/-- Modelled from the spec: `newLocalRFC8888Generator` starts from an empty
record stream. The `Metricer` and report-callback arguments only drive the
background report loop (`Run`), which is out of this embedding's scope. -/
def newLocalRFC8888Generator (ssrc : Nat) : LocalRFC8888Generator :=
  { ssrc := ssrc, acked := [] }

/-- Lookup in the `map[int]*flow` of an `RTPFlow`, modelled as an association
list with at most one entry per priority. -/
def lookupFlow : List (Int × Flow) → Int → Option Flow
  | [], _ => none
  | (k, v) :: rest, p => if k = p then some v else lookupFlow rest p

/-- Map update `f.flows[priority] = flow`: replaces the entry for the key if
present, otherwise appends it. -/
def insertFlow : List (Int × Flow) → Int → Flow → List (Int × Flow)
  | [], k, v => [(k, v)]
  | (k', v') :: rest, k, v =>
      if k' = k then (k, v) :: rest else (k', v') :: insertFlow rest k v

/-- The `RTPFlow` struct: a prioritizer (`Prioritize` modelled directly as a
function, as `PrioritizerFunc` wraps one), the priority-to-flow map, and the
optional local feedback generator (`nil` until `RunLocalFeedback`). -/
structure RTPFlow where
  prioritizer : RTPHeader → List Nat → Int
  flows : List (Int × Flow)
  localFeedback : Option LocalRFC8888Generator

/-- `defaultPriorityFunc`: always returns priority 0. -/
def defaultPriorityFunc : RTPHeader → List Nat → Int :=
  fun _ _ => 0

/-- `NewRTPFlow`: one unidentified flow at priority 0, default prioritizer,
no local feedback. -/
def NewRTPFlow : RTPFlow :=
  { prioritizer := defaultPriorityFunc, flows := [(0, newFlow)], localFeedback := none }

/-- `NewRTPFlowWithID`: one identified flow at priority 0. -/
def NewRTPFlowWithID (id : Nat) : RTPFlow :=
  { prioritizer := defaultPriorityFunc, flows := [(0, newFlowWithID id)],
    localFeedback := none }

/-- `RTPFlow.RunLocalFeedback`: installs a fresh generator; the goroutine
running its report loop is outside this embedding. After this call
`localFeedback` is non-nil, which switches `Write` to the callback path. -/
def RTPFlow.RunLocalFeedback (f : RTPFlow) (ssrc : Nat) : RTPFlow :=
  { f with localFeedback := some (newLocalRFC8888Generator ssrc) }

/-- `RTPFlow.Bind`: `f.flows[0].transport = t`. Reading `f.flows[0]` when the
map had no entry at 0 would dereference a nil pointer in Go; the invariant
proved for claim C6 shows the entry always exists, so the fallthrough branch
(returning `f` unchanged) is unreachable. -/
def RTPFlow.Bind (f : RTPFlow) (t : Transport) : RTPFlow :=
  match lookupFlow f.flows 0 with
  | some fl => { f with flows := insertFlow f.flows 0 (fl.bind t) }
  | none => f

/-- `RTPFlow.BindPriority`: registers a fresh identified flow, bound to
`transport`, at `priority`. -/
def RTPFlow.BindPriority (f : RTPFlow) (priority : Int) (flowID : Nat)
    (t : Transport) : RTPFlow :=
  { f with flows := insertFlow f.flows priority ((newFlowWithID flowID).bind t) }

/-- `RTPFlow.SetPrioritizer`. -/
def RTPFlow.SetPrioritizer (f : RTPFlow) (p : RTPHeader → List Nat → Int) : RTPFlow :=
  { f with prioritizer := p }

/-- `RTPFlow.Write`: marshals the header (early error return), evaluates the
prioritizer, looks up the flow (panic when absent), then either performs a
plain write (no local feedback) or a callback write. `now` stands for the
`time.Now()` taken at the callback-registration site. The third component
reports the closure state `RTPFlow.Write` captures in its `ackCallback`
argument — `(sent, ssrc, size, seqNr)` — or `none` when no callback was
handed out; the closure's later invocation is `RTPFlow.ackCallback`. -/
def RTPFlow.Write (f : RTPFlow) (header : RTPHeader) (payload : List Nat)
    (now : Nat) : RTPFlow × WResult × Option (Nat × Nat × Nat × Nat) :=
  match header.marshal with
  | .error e => (f, .err (.marshalErr e), none)
  | .ok headerBuf =>
      let prio := f.prioritizer header payload
      match lookupFlow f.flows prio with
      | none => (f, .fatalNoFlow prio, none)
      | some fl =>
          match f.localFeedback with
          | some _ =>
              let r := fl.writeWithCallBack (headerBuf ++ payload)
              ({ f with flows := insertFlow f.flows prio r.1 }, r.2,
                some (now, header.ssrc, header.MarshalSize, header.sequenceNumber))
          | none =>
              let r := fl.write (headerBuf ++ payload)
              ({ f with flows := insertFlow f.flows prio r.1 }, r.2, none)

/-- `RTPFlow.ackCallback`: the closure invoked by the transport with the
delivery verdict `b`. On `true` it forwards an `ackedPkt` built from the
captured values to the generator; on `false` it does nothing at all. (Go
reads `f.localFeedback` at invocation time; `Write` only hands the closure
out when the generator is non-nil, so the `none` case never fires.) -/
def RTPFlow.ackCallback (f : RTPFlow) (sent ssrc size seqNr : Nat) (b : Bool) :
    RTPFlow :=
  if b then
    { f with localFeedback :=
        f.localFeedback.map (·.ack { sentTS := sent, ssrc := ssrc, size := size, seqNr := seqNr }) }
  else f

/-- Configuration and write operations on an `RTPFlow`, for stating
invariants over arbitrary operation sequences. -/
inductive RTPOp where
  | bind (t : Transport)
  | bindPriority (priority : Int) (flowID : Nat) (t : Transport)
  | setPrioritizer (p : RTPHeader → List Nat → Int)
  | runLocalFeedback (ssrc : Nat)
  | write (h : RTPHeader) (payload : List Nat) (now : Nat)
  | ackCb (sent ssrc size seqNr : Nat) (b : Bool)

/-- Applies one operation to the flow group state. -/
def RTPFlow.applyOp (f : RTPFlow) : RTPOp → RTPFlow
  | .bind t => f.Bind t
  | .bindPriority p id t => f.BindPriority p id t
  | .setPrioritizer p => f.SetPrioritizer p
  | .runLocalFeedback ssrc => f.RunLocalFeedback ssrc
  | .write h payload now => (f.Write h payload now).1
  | .ackCb sent ssrc size seqNr b => f.ackCallback sent ssrc size seqNr b

/-- Applies a sequence of operations, oldest first. -/
def RTPFlow.applyOps (f : RTPFlow) (ops : List RTPOp) : RTPFlow :=
  ops.foldl RTPFlow.applyOp f

/-- The `CongestionControlAlgorithm` enum of the `controller` package. -/
inductive CongestionControlAlgorithm where
  | Reno
  | Cubic
  | BBR
  | SCReAM
  | GCC
deriving DecidableEq, Repr

/-- `CongestionControlAlgorithmFromString`: parses the name, logging a
warning and defaulting to `Reno` on anything unrecognized. -/
def CongestionControlAlgorithmFromString (a : String) : CongestionControlAlgorithm :=
  match a with
  | "reno" => .Reno
  | "cubic" => .Cubic
  | "bbr" => .BBR
  | "scream" => .SCReAM
  | "gcc" => .GCC
  | _ => .Reno

/-- The enum's `String()` method (named `toString` here because `String` is
the Lean type name). The `default` branch returning "none" is unreachable for
the five declared constants. -/
def CongestionControlAlgorithm.toString : CongestionControlAlgorithm → String
  | .Reno => "reno"
  | .Cubic => "cubic"
  | .BBR => "bbr"
  | .SCReAM => "scream"
  | .GCC => "gcc"

/-! Helper lemmas about the priority map. -/

/-- Updating a priority stores exactly the given flow there. -/
theorem lookupFlow_insertFlow_self (m : List (Int × Flow)) (k : Int) (v : Flow) :
    lookupFlow (insertFlow m k v) k = some v := by
  induction m with
  | nil => simp [insertFlow, lookupFlow]
  | cons e rest ih =>
      obtain ⟨k', v'⟩ := e
      by_cases hk : k' = k
      · simp [insertFlow, lookupFlow, hk]
      · simp [insertFlow, lookupFlow, hk, ih]

/-- Updating one priority leaves every other priority's entry unchanged. -/
theorem lookupFlow_insertFlow_ne (m : List (Int × Flow)) (k q : Int) (v : Flow)
    (h : q ≠ k) : lookupFlow (insertFlow m k v) q = lookupFlow m q := by
  have h' : ¬(k = q) := fun hh => h hh.symm
  induction m with
  | nil => simp [insertFlow, lookupFlow, h']
  | cons e rest ih =>
      obtain ⟨k', v'⟩ := e
      by_cases hk : k' = k
      · subst hk
        simp [insertFlow, lookupFlow, h']
      · by_cases hq : k' = q
        · subst hq
          simp [insertFlow, lookupFlow, hk]
        · simp [insertFlow, lookupFlow, hk, hq, ih]

/-- A priority that is registered stays registered across any update. -/
theorem lookupFlow_insertFlow_isSome (m : List (Int × Flow)) (k q : Int) (v : Flow)
    (h : (lookupFlow m q).isSome) : (lookupFlow (insertFlow m k v) q).isSome := by
  by_cases hq : q = k
  · subst hq
    simp [lookupFlow_insertFlow_self]
  · rw [lookupFlow_insertFlow_ne m k q v hq]
    exact h

/-! Case equations for `RTPFlow.Write`, shared by several claim proofs. -/

/-- Branch equation: `header.Marshal()` fails — the error is returned at once
with the state untouched and no callback handed out. -/
theorem rtpflow_write_eq_marshal_error (f : RTPFlow) (h : RTPHeader)
    (payload : List Nat) (now : Nat) (e : String) (hm : h.marshal = .error e) :
    f.Write h payload now = (f, .err (.marshalErr e), none) := by
  simp only [RTPFlow.Write, hm]

/-- Branch equation: successful marshal, registered priority, local feedback
enabled — the framed packet goes through `writeWithCallBack` on the selected
flow and the callback state `(now, ssrc, MarshalSize, seqNr)` is handed out. -/
theorem rtpflow_write_eq_feedback (f : RTPFlow) (h : RTPHeader) (payload : List Nat)
    (now : Nat) (headerBuf : List Nat) (fl : Flow) (g : LocalRFC8888Generator)
    (hm : h.marshal = .ok headerBuf)
    (hl : lookupFlow f.flows (f.prioritizer h payload) = some fl)
    (hfb : f.localFeedback = some g) :
    f.Write h payload now =
      ({ f with flows := (insertFlow f.flows (f.prioritizer h payload)
            ((fl.writeWithCallBack (headerBuf ++ payload)).1)) },
        (fl.writeWithCallBack (headerBuf ++ payload)).2,
        some (now, h.ssrc, h.MarshalSize, h.sequenceNumber)) := by
  simp only [RTPFlow.Write, hm, hl, hfb]

/-- Branch equation: successful marshal, registered priority, no local
feedback — the framed packet goes through the plain `write` on the selected
flow and no callback is handed out. -/
theorem rtpflow_write_eq_plain (f : RTPFlow) (h : RTPHeader) (payload : List Nat)
    (now : Nat) (headerBuf : List Nat) (fl : Flow)
    (hm : h.marshal = .ok headerBuf)
    (hl : lookupFlow f.flows (f.prioritizer h payload) = some fl)
    (hfb : f.localFeedback = none) :
    f.Write h payload now =
      ({ f with flows := (insertFlow f.flows (f.prioritizer h payload)
            ((fl.write (headerBuf ++ payload)).1)) },
        (fl.write (headerBuf ++ payload)).2, none) := by
  simp only [RTPFlow.Write, hm, hl, hfb]

/-- Branch equation: successful marshal but no flow registered under the
priority the policy returned — the panic, with the state untouched. -/
theorem rtpflow_write_eq_noflow (f : RTPFlow) (h : RTPHeader) (payload : List Nat)
    (now : Nat) (headerBuf : List Nat)
    (hm : h.marshal = .ok headerBuf)
    (hl : lookupFlow f.flows (f.prioritizer h payload) = none) :
    f.Write h payload now = (f, .fatalNoFlow (f.prioritizer h payload), none) := by
  simp only [RTPFlow.Write, hm, hl]

/-- The flow map after a `Write` is either untouched or a single-priority
update of the old map. -/
theorem rtpflow_write_flows_cases (f : RTPFlow) (h : RTPHeader) (payload : List Nat)
    (now : Nat) :
    (f.Write h payload now).1.flows = f.flows ∨
    ∃ k v, (f.Write h payload now).1.flows = insertFlow f.flows k v := by
  rcases hm : h.marshal with e | headerBuf
  · rw [rtpflow_write_eq_marshal_error f h payload now e hm]
    exact Or.inl rfl
  · rcases hl : lookupFlow f.flows (f.prioritizer h payload) with _ | fl
    · rw [rtpflow_write_eq_noflow f h payload now headerBuf hm hl]
      exact Or.inl rfl
    · rcases hfb : f.localFeedback with _ | g
      · rw [rtpflow_write_eq_plain f h payload now headerBuf fl hm hl hfb]
        exact Or.inr ⟨_, _, rfl⟩
      · rw [rtpflow_write_eq_feedback f h payload now headerBuf fl g hm hl hfb]
        exact Or.inr ⟨_, _, rfl⟩

/-- `Write` never touches the local feedback generator field. -/
theorem rtpflow_write_localFeedback (f : RTPFlow) (h : RTPHeader) (payload : List Nat)
    (now : Nat) : (f.Write h payload now).1.localFeedback = f.localFeedback := by
  rcases hm : h.marshal with e | headerBuf
  · rw [rtpflow_write_eq_marshal_error f h payload now e hm]
  · rcases hl : lookupFlow f.flows (f.prioritizer h payload) with _ | fl
    · rw [rtpflow_write_eq_noflow f h payload now headerBuf hm hl]
    · rcases hfb : f.localFeedback with _ | g
      · rw [rtpflow_write_eq_plain f h payload now headerBuf fl hm hl hfb]
        exact hfb
      · rw [rtpflow_write_eq_feedback f h payload now headerBuf fl g hm hl hfb]
        exact hfb

/-- Branch equations for `Bind`: the priority-0 flow gets the transport. -/
theorem rtpflow_bind_eq_some (f : RTPFlow) (t : Transport) (fl : Flow)
    (hl : lookupFlow f.flows 0 = some fl) :
    f.Bind t = { f with flows := (insertFlow f.flows 0 (fl.bind t)) } := by
  simp only [RTPFlow.Bind, hl]

/-- Branch equation for `Bind` when priority 0 is unregistered (in Go this
dereferences a nil pointer; unreachable under the C6 invariant). -/
theorem rtpflow_bind_eq_none (f : RTPFlow) (t : Transport)
    (hl : lookupFlow f.flows 0 = none) : f.Bind t = f := by
  simp only [RTPFlow.Bind, hl]

/-- Every operation preserves the presence of an entry at priority 0. -/
theorem prio0_isSome_applyOp (f : RTPFlow) (op : RTPOp)
    (h : (lookupFlow f.flows 0).isSome) :
    (lookupFlow ((f.applyOp op).flows) 0).isSome := by
  cases op with
  | bind t =>
      show (lookupFlow ((f.Bind t).flows) 0).isSome
      rcases hl : lookupFlow f.flows 0 with _ | fl
      · rw [rtpflow_bind_eq_none f t hl]
        exact h
      · rw [rtpflow_bind_eq_some f t fl hl]
        exact lookupFlow_insertFlow_isSome _ _ _ _ h
  | bindPriority p id t =>
      exact lookupFlow_insertFlow_isSome _ _ _ _ h
  | setPrioritizer p => exact h
  | runLocalFeedback ssrc => exact h
  | write hd payload now =>
      show (lookupFlow (((f.Write hd payload now).1).flows) 0).isSome
      rcases rtpflow_write_flows_cases f hd payload now with hc | ⟨k, v, hc⟩
      · rw [hc]
        exact h
      · rw [hc]
        exact lookupFlow_insertFlow_isSome _ _ _ _ h
  | ackCb sent ssrc size seqNr b =>
      show (lookupFlow ((f.ackCallback sent ssrc size seqNr b).flows) 0).isSome
      cases b
      · exact h
      · exact h

/-- Every operation preserves a non-nil local feedback generator. -/
theorem localFeedback_isSome_applyOp (f : RTPFlow) (op : RTPOp)
    (h : f.localFeedback.isSome) : ((f.applyOp op).localFeedback).isSome := by
  cases op with
  | bind t =>
      show ((f.Bind t).localFeedback).isSome
      rcases hl : lookupFlow f.flows 0 with _ | fl
      · rw [rtpflow_bind_eq_none f t hl]
        exact h
      · rw [rtpflow_bind_eq_some f t fl hl]
        exact h
  | bindPriority p id t => exact h
  | setPrioritizer p => exact h
  | runLocalFeedback ssrc => simp [RTPFlow.applyOp, RTPFlow.RunLocalFeedback]
  | write hd payload now =>
      show (((f.Write hd payload now).1).localFeedback).isSome
      rw [rtpflow_write_localFeedback]
      exact h
  | ackCb sent ssrc size seqNr b =>
      show ((f.ackCallback sent ssrc size seqNr b).localFeedback).isSome
      cases b
      · exact h
      · simp only [RTPFlow.ackCallback, if_pos rfl]
        rcases hfb : f.localFeedback with _ | g
        · rw [hfb] at h
          simp at h
        · simp [hfb]

/-- Operation sequences preserve the priority-0 entry. -/
theorem prio0_isSome_applyOps (f : RTPFlow) (ops : List RTPOp)
    (h : (lookupFlow f.flows 0).isSome) :
    (lookupFlow ((f.applyOps ops).flows) 0).isSome := by
  induction ops generalizing f with
  | nil => exact h
  | cons op rest ih => exact ih _ (prio0_isSome_applyOp f op h)

/-- Operation sequences preserve a non-nil local feedback generator. -/
theorem localFeedback_isSome_applyOps (f : RTPFlow) (ops : List RTPOp)
    (h : f.localFeedback.isSome) : (((f.applyOps ops)).localFeedback).isSome := by
  induction ops generalizing f with
  | nil => exact h
  | cons op rest ih => exact ih _ (localFeedback_isSome_applyOp f op h)

/-! Claim theorems. -/

/-- C1: `write(P)` on a sub-flow constructed with identifier `id` (within the
62-bit varint range) hands exactly `quicvarintEncode id ++ P` to the bound
transport's `Write`, and on a sub-flow constructed without an identifier it
hands exactly `P`. -/
theorem write_frames_exactly_varint_id (id : Nat) (t : Transport) (P : List Nat)
    (hid : id ≤ 4611686018427387903) :
    (((newFlowWithID id).bind t).write P).1.transport
        = some { t with writes := t.writes ++ [quicvarintEncode id ++ P] } ∧
    ((newFlow.bind t).write P).1.transport
        = some { t with writes := t.writes ++ [P] } := by
  constructor
  · simp [newFlowWithID, Flow.bind, Flow.write, frameID]
  · simp [newFlow, Flow.bind, Flow.write, frameID]

/-- Witness for C1 at Scenario A: id 7, payload `[0x01, 0x02]`, starting from
an empty transport log; the transmitted bytes are `varint(7) ++ [0x01, 0x02]`
= `[7, 1, 2]`, and the unidentified flow transmits `[1, 2]`. -/
theorem write_frames_exactly_varint_id_witness :
    (((newFlowWithID 7).bind { supportsCallback := false, writes := [], cbWrites := [] }).write
        [1, 2]).1.transport
      = some { supportsCallback := false, writes := [[7, 1, 2]], cbWrites := [] } ∧
    ((newFlow.bind { supportsCallback := false, writes := [], cbWrites := [] }).write
        [1, 2]).1.transport
      = some { supportsCallback := false, writes := [[1, 2]], cbWrites := [] } := by
  have h := write_frames_exactly_varint_id 7
    { supportsCallback := false, writes := [], cbWrites := [] } [1, 2] (by decide)
  simpa [quicvarintEncode] using h

/-- C3: `writeWithCallBack` against a bound transport that does not support
ack/loss notification returns the `errInvalidTransport` error with 0 bytes
written and leaves the flow — in particular the transport's write logs —
completely unchanged. -/
theorem writeWithCallBack_invalid_transport (f : Flow) (t : Transport) (P : List Nat)
    (callback : Bool → Unit)
    (hb : f.transport = some t) (hcb : t.supportsCallback = false) :
    f.writeWithCallBack P = (f, .err .invalidTransport) ∧
    (f.writeWithCallBack P).2.bytesWritten = 0 := by
  have h : f.writeWithCallBack P = (f, .err .invalidTransport) := by
    simp [Flow.writeWithCallBack, hb, hcb]
  exact ⟨h, by rw [h]; rfl⟩

/-- Witness for C3: a flow bound to a callback-incapable transport with a
pending payload returns `(0, errInvalidTransport)` and stays unchanged. -/
theorem writeWithCallBack_invalid_transport_witness :
    ((newFlowWithID 3).bind { supportsCallback := false, writes := [], cbWrites := [] }).writeWithCallBack [5]
        = ((newFlowWithID 3).bind { supportsCallback := false, writes := [], cbWrites := [] },
            .err .invalidTransport) ∧
    (((newFlowWithID 3).bind { supportsCallback := false, writes := [], cbWrites := [] }).writeWithCallBack
        [5]).2.bytesWritten = 0 :=
  writeWithCallBack_invalid_transport _ _ [5] (fun _ => ()) rfl rfl

/-- C5: a delivery callback firing with `false` (lost / unacknowledged) is a
no-op on the whole flow-group state: no Send Record is built and the local
feedback generator is left exactly as it was. -/
theorem ackCallback_false_no_record (f : RTPFlow) (sent ssrc size seqNr : Nat) :
    f.ackCallback sent ssrc size seqNr false = f := by
  rfl

/-- C9: when marshalling the RTP header fails, `RTPFlow.Write` returns 0
bytes and the marshal error, the state is returned untouched (no sub-flow or
transport written), and no ack/loss callback is registered. The result is the
same whatever prioritizer is installed, since the error return precedes the
policy evaluation. -/
theorem rtpflow_write_marshal_error (f : RTPFlow) (h : RTPHeader) (payload : List Nat)
    (now : Nat) (e : String) (hm : h.marshal = .error e) :
    f.Write h payload now = (f, .err (.marshalErr e), none) ∧
    (f.Write h payload now).2.1.bytesWritten = 0 := by
  have hw : f.Write h payload now = (f, .err (.marshalErr e), none) := by
    simp [RTPFlow.Write, hm]
  exact ⟨hw, by rw [hw]; rfl⟩

/-- Witness for C9: a header whose marshalling fails with "bad extension"
makes `Write` return the marshal error and leave the fresh flow group
unchanged. -/
theorem rtpflow_write_marshal_error_witness :
    NewRTPFlow.Write { ssrc := 9, sequenceNumber := 4, marshal := .error "bad extension" } [1] 0
        = (NewRTPFlow, .err (.marshalErr "bad extension"), none) ∧
    (NewRTPFlow.Write { ssrc := 9, sequenceNumber := 4, marshal := .error "bad extension" } [1]
        0).2.1.bytesWritten = 0 :=
  rtpflow_write_marshal_error NewRTPFlow _ [1] 0 "bad extension" rfl

/-- C10: converting each defined congestion-control algorithm to its string
name and back is the identity, and converting any string that is none of the
five recognized names yields the default `Reno`. -/
theorem congestion_control_string_roundtrip :
    (∀ a : CongestionControlAlgorithm,
        CongestionControlAlgorithmFromString a.toString = a) ∧
    ∀ s : String, s ∉ (["reno", "cubic", "bbr", "scream", "gcc"] : List String) →
        CongestionControlAlgorithmFromString s = .Reno := by
  constructor
  · intro a
    cases a <;> rfl
  · intro s hs
    simp only [List.mem_cons, List.not_mem_nil, or_false, not_or] at hs
    obtain ⟨h1, h2, h3, h4, h5⟩ := hs
    unfold CongestionControlAlgorithmFromString
    split
    · exact absurd rfl h1
    · exact absurd rfl h2
    · exact absurd rfl h3
    · exact absurd rfl h4
    · exact absurd rfl h5
    · rfl

/-- Witness for C10: the five round trips hold, and the unrecognized string
"newreno" parses to the default `Reno`. -/
theorem congestion_control_string_roundtrip_witness :
    CongestionControlAlgorithmFromString CongestionControlAlgorithm.GCC.toString
        = CongestionControlAlgorithm.GCC ∧
    CongestionControlAlgorithmFromString "newreno" = CongestionControlAlgorithm.Reno :=
  ⟨congestion_control_string_roundtrip.1 .GCC,
    congestion_control_string_roundtrip.2 "newreno" (by decide)⟩

/-- C2: `RTPFlow.Write` routes the marshalled packet to exactly the sub-flow
registered under the priority class the policy returns — dispatching the
framed bytes to that flow's plain or callback write and leaving every other
priority's sub-flow untouched — and if no sub-flow is registered under that
class it panics with the state unchanged: no fallback, no transport write. -/
theorem prioritized_write_routes_or_fails_fatally
    (f : RTPFlow) (h : RTPHeader) (payload : List Nat) (now : Nat)
    (headerBuf : List Nat) (hm : h.marshal = .ok headerBuf) :
    (lookupFlow f.flows (f.prioritizer h payload) = none →
        f.Write h payload now = (f, .fatalNoFlow (f.prioritizer h payload), none)) ∧
    (∀ fl, lookupFlow f.flows (f.prioritizer h payload) = some fl →
        (∀ q, q ≠ f.prioritizer h payload →
            lookupFlow ((f.Write h payload now).1.flows) q = lookupFlow f.flows q) ∧
        (f.localFeedback = none →
            lookupFlow ((f.Write h payload now).1.flows) (f.prioritizer h payload)
                = some ((fl.write (headerBuf ++ payload)).1) ∧
            (f.Write h payload now).2.1 = (fl.write (headerBuf ++ payload)).2) ∧
        (∀ g, f.localFeedback = some g →
            lookupFlow ((f.Write h payload now).1.flows) (f.prioritizer h payload)
                = some ((fl.writeWithCallBack (headerBuf ++ payload)).1) ∧
            (f.Write h payload now).2.1 = (fl.writeWithCallBack (headerBuf ++ payload)).2)) := by
  refine ⟨fun hl => rtpflow_write_eq_noflow f h payload now headerBuf hm hl, ?_⟩
  intro fl hl
  refine ⟨?_, ?_, ?_⟩
  · intro q hq
    rcases hfb : f.localFeedback with _ | g
    · rw [rtpflow_write_eq_plain f h payload now headerBuf fl hm hl hfb]
      exact lookupFlow_insertFlow_ne _ _ _ _ hq
    · rw [rtpflow_write_eq_feedback f h payload now headerBuf fl g hm hl hfb]
      exact lookupFlow_insertFlow_ne _ _ _ _ hq
  · intro hfb
    rw [rtpflow_write_eq_plain f h payload now headerBuf fl hm hl hfb]
    exact ⟨lookupFlow_insertFlow_self _ _ _, rfl⟩
  · intro g hfb
    rw [rtpflow_write_eq_feedback f h payload now headerBuf fl g hm hl hfb]
    exact ⟨lookupFlow_insertFlow_self _ _ _, rfl⟩

/-- Witness for C2, Scenario B shaped: a group with sub-flows at priorities 0
and 1 and a policy returning 1 routes the write to the priority-1 sub-flow,
leaving priority 0 untouched; a group whose policy returns the unregistered
priority 2 panics without touching any state. -/
theorem prioritized_write_routes_or_fails_fatally_witness :
    (lookupFlow (((((NewRTPFlow.Bind { supportsCallback := false, writes := [], cbWrites := [] }).BindPriority
          1 5 { supportsCallback := false, writes := [], cbWrites := [] }).SetPrioritizer
          (fun _ _ => 1)).Write { ssrc := 7, sequenceNumber := 42, marshal := .ok [128] }
          [3] 0).1.flows) 0
        = lookupFlow ((((NewRTPFlow.Bind { supportsCallback := false, writes := [], cbWrites := [] }).BindPriority
          1 5 { supportsCallback := false, writes := [], cbWrites := [] }).SetPrioritizer
          (fun _ _ => 1)).flows) 0) ∧
    (lookupFlow (((((NewRTPFlow.Bind { supportsCallback := false, writes := [], cbWrites := [] }).BindPriority
          1 5 { supportsCallback := false, writes := [], cbWrites := [] }).SetPrioritizer
          (fun _ _ => 1)).Write { ssrc := 7, sequenceNumber := 42, marshal := .ok [128] }
          [3] 0).1.flows) 1
        = some ((((newFlowWithID 5).bind { supportsCallback := false, writes := [], cbWrites := [] }).write
            ([128] ++ [3])).1)) ∧
    (NewRTPFlow.SetPrioritizer (fun _ _ => 2)).Write
        { ssrc := 7, sequenceNumber := 42, marshal := .ok [128] } [3] 0
      = (NewRTPFlow.SetPrioritizer (fun _ _ => 2), .fatalNoFlow 2, none) := by
  have h1 := prioritized_write_routes_or_fails_fatally
    ((((NewRTPFlow.Bind { supportsCallback := false, writes := [], cbWrites := [] }).BindPriority
        1 5 { supportsCallback := false, writes := [], cbWrites := [] }).SetPrioritizer
        (fun _ _ => 1)))
    { ssrc := 7, sequenceNumber := 42, marshal := .ok [128] } [3] 0 [128] rfl
  have h2 := prioritized_write_routes_or_fails_fatally
    (NewRTPFlow.SetPrioritizer (fun _ _ => 2))
    { ssrc := 7, sequenceNumber := 42, marshal := .ok [128] } [3] 0 [128] rfl
  exact ⟨(h1.2 _ rfl).1 0 (by decide), ((h1.2 _ rfl).2.1 rfl).1, h2.1 rfl⟩

/-- C4 counterexample: with local feedback enabled, a packet whose marshalled
header is 12 bytes and whose payload is 1 byte hands out a callback carrying
size 12 — the marshalled header only — and on acknowledgment the record
forwarded to the generator has `size = 12`, while the transmitted packet
(marshalled header plus payload) is 13 bytes long. -/
theorem ack_record_size_excludes_payload_cex :
    ((((NewRTPFlow.Bind { supportsCallback := true, writes := [], cbWrites := [] }).RunLocalFeedback
          1).Write { ssrc := 7, sequenceNumber := 42, marshal := .ok [128, 96, 0, 42, 0, 0, 0, 0, 0, 0, 0, 7] } [9] 100).2.2
      = some (100, 7, 12, 42)) ∧
    (((((NewRTPFlow.Bind { supportsCallback := true, writes := [], cbWrites := [] }).RunLocalFeedback
          1).Write { ssrc := 7, sequenceNumber := 42, marshal := .ok [128, 96, 0, 42, 0, 0, 0, 0, 0, 0, 0, 7] } [9]
          100).1.ackCallback 100 7 12 42 true).localFeedback
      = some { ssrc := 1, acked := [{ sentTS := 100, ssrc := 7, size := 12, seqNr := 42 }] }) ∧
    ([128, 96, 0, 42, 0, 0, 0, 0, 0, 0, 0, 7] ++ [9]).length = 13 ∧ (12 : Nat) ≠ 13 :=
  ⟨rfl, rfl, rfl, by decide⟩

/-- C4 as amended: the record forwarded to the generator on acknowledgment
has `sentAt` equal to the hand-off time, `sourceID` equal to the header's
SSRC, `sequenceNumber` equal to the header's sequence number, and `size`
equal to the marshalled RTP header's size in bytes (the payload bytes are not
counted). -/
theorem ack_record_fields_header_size_only
    (f : RTPFlow) (h : RTPHeader) (payload : List Nat) (now : Nat)
    (headerBuf : List Nat) (fl : Flow) (gen : LocalRFC8888Generator)
    (hm : h.marshal = .ok headerBuf)
    (hl : lookupFlow f.flows (f.prioritizer h payload) = some fl)
    (hfb : f.localFeedback = some gen) :
    (f.Write h payload now).2.2 = some (now, h.ssrc, headerBuf.length, h.sequenceNumber) ∧
    (f.Write h payload now).1.localFeedback = some gen ∧
    ∀ (f' : RTPFlow) (g' : LocalRFC8888Generator), f'.localFeedback = some g' →
        (f'.ackCallback now h.ssrc headerBuf.length h.sequenceNumber true).localFeedback
          = some (g'.ack { sentTS := now, ssrc := h.ssrc, size := headerBuf.length, seqNr := h.sequenceNumber }) := by
  refine ⟨?_, ?_, ?_⟩
  · rw [rtpflow_write_eq_feedback f h payload now headerBuf fl gen hm hl hfb]
    simp [RTPHeader.MarshalSize, hm]
  · rw [rtpflow_write_eq_feedback f h payload now headerBuf fl gen hm hl hfb]
    exact hfb
  · intro f' g' hfb'
    simp [RTPFlow.ackCallback, hfb']

/-- Witness for the amended C4: with feedback enabled on a callback-capable
transport, writing a 1-byte-header packet at time 11 registers the callback
state `(11, 3, 1, 20)`, and firing it with `true` appends exactly that
record. -/
theorem ack_record_fields_header_size_only_witness :
    (((NewRTPFlow.Bind { supportsCallback := true, writes := [], cbWrites := [] }).RunLocalFeedback
        3).Write { ssrc := 3, sequenceNumber := 20, marshal := .ok [128] } [1, 2] 11).2.2
      = some (11, 3, 1, 20) ∧
    (((NewRTPFlow.Bind { supportsCallback := true, writes := [], cbWrites := [] }).RunLocalFeedback
        3).Write { ssrc := 3, sequenceNumber := 20, marshal := .ok [128] } [1, 2] 11).1.localFeedback
      = some { ssrc := 3, acked := [] } ∧
    (((NewRTPFlow.RunLocalFeedback 3).ackCallback 11 3 1 20 true).localFeedback
      = some ({ ssrc := 3, acked := [] : LocalRFC8888Generator }.ack
          { sentTS := 11, ssrc := 3, size := 1, seqNr := 20 })) := by
  have h := ack_record_fields_header_size_only
    ((NewRTPFlow.Bind { supportsCallback := true, writes := [], cbWrites := [] }).RunLocalFeedback 3)
    { ssrc := 3, sequenceNumber := 20, marshal := .ok [128] } [1, 2] 11 [128]
    (newFlow.bind { supportsCallback := true, writes := [], cbWrites := [] })
    { ssrc := 3, acked := [] } rfl rfl rfl
  exact ⟨h.1, h.2.1, h.2.2 (NewRTPFlow.RunLocalFeedback 3) { ssrc := 3, acked := [] } rfl⟩

/-- C6: a freshly created prioritized RTP flow group holds exactly the single
unidentified sub-flow at priority 0 with the always-zero default policy, and
an entry at priority 0 survives every sequence of operations (from either
constructor). -/
theorem default_flow_and_prio0_always_registered :
    (NewRTPFlow.flows = [(0, newFlow)] ∧ newFlow.useID = false ∧ newFlow.varIntID = [] ∧
        ∀ (h : RTPHeader) (p : List Nat), NewRTPFlow.prioritizer h p = 0) ∧
    (∀ ops : List RTPOp, (lookupFlow ((NewRTPFlow.applyOps ops).flows) 0).isSome) ∧
    (∀ (id : Nat) (ops : List RTPOp),
        (lookupFlow (((NewRTPFlowWithID id).applyOps ops).flows) 0).isSome) :=
  ⟨⟨rfl, rfl, rfl, fun _ _ => rfl⟩,
    fun ops => prio0_isSome_applyOps NewRTPFlow ops rfl,
    fun id ops => prio0_isSome_applyOps (NewRTPFlowWithID id) ops rfl⟩

/-- C7: `RunLocalFeedback` makes the generator non-nil and it stays non-nil
across every later operation; with the generator non-nil, `Write` dispatches
the packet through `writeWithCallBack` (registering ack/loss tracking), and
with it nil `Write` performs the plain, untracked write. -/
theorem run_local_feedback_switches_write_mode :
    (∀ (f : RTPFlow) (ssrc : Nat) (ops : List RTPOp),
        (((f.RunLocalFeedback ssrc).applyOps ops).localFeedback).isSome) ∧
    (∀ (g : RTPFlow) (h : RTPHeader) (payload : List Nat) (now : Nat)
        (headerBuf : List Nat) (fl : Flow) (gen : LocalRFC8888Generator),
        g.localFeedback = some gen → h.marshal = .ok headerBuf →
        lookupFlow g.flows (g.prioritizer h payload) = some fl →
        (g.Write h payload now).2 = ((fl.writeWithCallBack (headerBuf ++ payload)).2,
            some (now, h.ssrc, h.MarshalSize, h.sequenceNumber)) ∧
        lookupFlow ((g.Write h payload now).1.flows) (g.prioritizer h payload)
            = some ((fl.writeWithCallBack (headerBuf ++ payload)).1)) ∧
    (∀ (g : RTPFlow) (h : RTPHeader) (payload : List Nat) (now : Nat)
        (headerBuf : List Nat) (fl : Flow),
        g.localFeedback = none → h.marshal = .ok headerBuf →
        lookupFlow g.flows (g.prioritizer h payload) = some fl →
        (g.Write h payload now).2 = ((fl.write (headerBuf ++ payload)).2, none) ∧
        lookupFlow ((g.Write h payload now).1.flows) (g.prioritizer h payload)
            = some ((fl.write (headerBuf ++ payload)).1)) := by
  refine ⟨?_, ?_, ?_⟩
  · intro f ssrc ops
    exact localFeedback_isSome_applyOps _ ops rfl
  · intro g h payload now headerBuf fl gen hfb hm hl
    rw [rtpflow_write_eq_feedback g h payload now headerBuf fl gen hm hl hfb]
    exact ⟨rfl, lookupFlow_insertFlow_self _ _ _⟩
  · intro g h payload now headerBuf fl hfb hm hl
    rw [rtpflow_write_eq_plain g h payload now headerBuf fl hm hl hfb]
    exact ⟨rfl, lookupFlow_insertFlow_self _ _ _⟩

/-- Witness for C7: after `RunLocalFeedback` the write of a packet goes out
through `writeWithCallBack` with the callback state registered, and on a
fresh group without feedback the same packet goes out through the plain
`write` with no callback registered. -/
theorem run_local_feedback_switches_write_mode_witness :
    (((NewRTPFlow.Bind { supportsCallback := true, writes := [], cbWrites := [] }).RunLocalFeedback
          9).Write { ssrc := 7, sequenceNumber := 42, marshal := .ok [128] } [3] 5).2
      = (((newFlow.bind { supportsCallback := true, writes := [], cbWrites := [] }).writeWithCallBack
          ([128] ++ [3])).2,
          some (5, 7, RTPHeader.MarshalSize { ssrc := 7, sequenceNumber := 42, marshal := .ok [128] },
            42)) ∧
    ((NewRTPFlow.Bind { supportsCallback := true, writes := [], cbWrites := [] }).Write
          { ssrc := 7, sequenceNumber := 42, marshal := .ok [128] } [3] 5).2
      = (((newFlow.bind { supportsCallback := true, writes := [], cbWrites := [] }).write
          ([128] ++ [3])).2, none) := by
  have h1 := run_local_feedback_switches_write_mode.2.1
    ((NewRTPFlow.Bind { supportsCallback := true, writes := [], cbWrites := [] }).RunLocalFeedback 9)
    { ssrc := 7, sequenceNumber := 42, marshal := .ok [128] } [3] 5 [128]
    (newFlow.bind { supportsCallback := true, writes := [], cbWrites := [] })
    { ssrc := 9, acked := [] } rfl rfl rfl
  have h2 := run_local_feedback_switches_write_mode.2.2
    (NewRTPFlow.Bind { supportsCallback := true, writes := [], cbWrites := [] })
    { ssrc := 7, sequenceNumber := 42, marshal := .ok [128] } [3] 5 [128]
    (newFlow.bind { supportsCallback := true, writes := [], cbWrites := [] }) rfl rfl rfl
  exact ⟨h1.1, h2.1⟩

/-- C8: `RTCPFlow.Write` hands exactly the serialized packet sequence —
prefixed by the encoded flow id when the sub-flow was created with one — to
the transport's plain `Write` (the callback log is untouched), and a
serialization failure is returned as `(0, error)` with the state unchanged. -/
theorem rtcp_write_serializes_and_propagates_errors {α : Type}
    (marshal : List α → Except String (List Nat)) (id : Nat) (t : Transport)
    (pkts : List α) (hid : id ≤ 4611686018427387903) :
    (∀ e, marshal pkts = .error e →
        RTCPFlow.Write marshal ((NewRTCPFlowWithID id).Bind t) pkts
            = ((NewRTCPFlowWithID id).Bind t, .err (.marshalErr e)) ∧
        RTCPFlow.Write marshal (NewRTCPFlow.Bind t) pkts
            = (NewRTCPFlow.Bind t, .err (.marshalErr e))) ∧
    (∀ buf, marshal pkts = .ok buf →
        ((RTCPFlow.Write marshal ((NewRTCPFlowWithID id).Bind t) pkts).1.flow.transport
            = some { t with writes := t.writes ++ [quicvarintEncode id ++ buf] }) ∧
        ((RTCPFlow.Write marshal (NewRTCPFlow.Bind t) pkts).1.flow.transport
            = some { t with writes := t.writes ++ [buf] })) := by
  constructor
  · intro e hme
    constructor <;> simp [RTCPFlow.Write, hme]
  · intro buf hok
    constructor <;>
      simp [RTCPFlow.Write, hok, Flow.write, frameID, NewRTCPFlowWithID, NewRTCPFlow,
        RTCPFlow.Bind, Flow.bind, newFlowWithID, newFlow]

/-- Witness for C8: a marshaller failing on the empty packet list returns the
error with the flow unchanged; on a nonempty list serializing to `[200]` the
identified flow (id 7) transmits `varint(7) ++ [200]` and the unidentified
one transmits `[200]`. -/
theorem rtcp_write_serializes_and_propagates_errors_witness :
    RTCPFlow.Write (fun l : List Nat => if l.isEmpty then .error "empty" else .ok [200])
        ((NewRTCPFlowWithID 7).Bind { supportsCallback := false, writes := [], cbWrites := [] }) []
      = ((NewRTCPFlowWithID 7).Bind { supportsCallback := false, writes := [], cbWrites := [] },
          .err (.marshalErr "empty")) ∧
    (RTCPFlow.Write (fun l : List Nat => if l.isEmpty then .error "empty" else .ok [200])
        ((NewRTCPFlowWithID 7).Bind { supportsCallback := false, writes := [], cbWrites := [] })
        [1]).1.flow.transport
      = some { supportsCallback := false, writes := [quicvarintEncode 7 ++ [200]], cbWrites := [] } ∧
    (RTCPFlow.Write (fun l : List Nat => if l.isEmpty then .error "empty" else .ok [200])
        (NewRTCPFlow.Bind { supportsCallback := false, writes := [], cbWrites := [] })
        [1]).1.flow.transport
      = some { supportsCallback := false, writes := [[200]], cbWrites := [] } := by
  have h1 := (rtcp_write_serializes_and_propagates_errors
    (fun l : List Nat => if l.isEmpty then .error "empty" else .ok [200]) 7
    { supportsCallback := false, writes := [], cbWrites := [] } [] (by decide)).1 "empty" rfl
  have h2 := (rtcp_write_serializes_and_propagates_errors
    (fun l : List Nat => if l.isEmpty then .error "empty" else .ok [200]) 7
    { supportsCallback := false, writes := [], cbWrites := [] } [1] (by decide)).2 [200] rfl
  exact ⟨h1.1, h2.1, h2.2⟩

end RtpOverQuic
